import Mathlib

/-!
Verification of the face-controlled wheelchair system (MARK_II and OLD_VER
variants) against its natural-language specification.

The Python sources are embedded shallowly: angles, ratios and times are
modelled as rationals (`ℚ`), Python `int(...)` truncation as `pyTrunc`,
`np.round` (round-half-to-even) as `npRound`, and the per-iteration bodies of
the stateful loops as explicit state-passing functions.  NaN/Inf guards in the
source are unreachable in exact rational arithmetic and are noted where they
occur.
-/

/-- Python `int(q)` for a float `q`: truncation toward zero. -/
def pyTrunc (q : ℚ) : ℤ := if 0 ≤ q then ⌊q⌋ else -⌊-q⌋

/-- Embedding of `np.round q`: round half to even (banker's rounding), as used by
`FaceMesh._calculate_head_pose`. -/
def npRound (q : ℚ) : ℤ :=
  if q - ⌊q⌋ < 1/2 then ⌊q⌋
  else if 1/2 < q - ⌊q⌋ then ⌊q⌋ + 1
  else if ⌊q⌋ % 2 = 0 then ⌊q⌋ else ⌊q⌋ + 1

/-- Gesture enum from `GestureRecognizer.py` (`NONE`, `BROW_RAISE`, `BLINK`). -/
inductive Gesture where
  | gNone
  | browRaise
  | blink
deriving DecidableEq, Repr

/-- The `control` configuration section used by
`WheelchairController._calculate_control` (`main.py`), with the defaults
read via `config.get`. -/
structure ControlCfg where
  minControlPitch : ℚ
  maxControlPitch : ℚ
  minControlYaw : ℚ
  maxControlYaw : ℚ
  maxSpeedPercent : ℚ
  faceLostTimeout : ℚ
deriving DecidableEq, Repr

/-- The defaults hard-coded in `main.py`:
`min_control_pitch=5, max_control_pitch=15, min_control_yaw=5,
max_control_yaw=25, max_speed_percent=20, face_lost_timeout=2.0`. -/
def defaultCfg : ControlCfg :=
  { minControlPitch := 5, maxControlPitch := 15, minControlYaw := 5,
    maxControlYaw := 25, maxSpeedPercent := 20, faceLostTimeout := 2 }

/-- Embedding of `WheelchairController._calculate_control` (main.py 476-511):
maps optional (yaw, pitch) to (speed, position).  `None` inputs give (0, 0);
speed comes linearly from pitch above its deadzone, position from
`abs(yaw - min_control_yaw)` scaled and signed by `yaw > 0`. -/
def calculateControl (cfg : ControlCfg) (yaw pitch : Option ℚ) : ℤ × ℤ :=
  match yaw, pitch with
  | some y, some p =>
    let speed : ℤ :=
      if p > cfg.minControlPitch then
        pyTrunc (min ((p - cfg.minControlPitch) /
          (cfg.maxControlPitch - cfg.minControlPitch)) 1 * cfg.maxSpeedPercent)
      else 0
    let position : ℤ :=
      if |y| > cfg.minControlYaw then
        pyTrunc (min (|y - cfg.minControlYaw| /
          (cfg.maxControlYaw - cfg.minControlYaw)) 1 * 100) *
          (if y > 0 then 1 else -1)
      else 0
    (speed, position)
  | _, _ => (0, 0)

section TruncLemmas

theorem pyTrunc_of_nonneg {q : ℚ} (h : 0 ≤ q) : pyTrunc q = ⌊q⌋ := by
  simp [pyTrunc, h]

theorem pyTrunc_nonneg {q : ℚ} (h : 0 ≤ q) : 0 ≤ pyTrunc q := by
  rw [pyTrunc_of_nonneg h]
  exact Int.floor_nonneg.mpr h

theorem pyTrunc_le {q : ℚ} (h : 0 ≤ q) : (pyTrunc q : ℚ) ≤ q := by
  rw [pyTrunc_of_nonneg h]
  exact Int.floor_le q

theorem pyTrunc_mono_nonneg {a b : ℚ} (ha : 0 ≤ a) (hab : a ≤ b) :
    pyTrunc a ≤ pyTrunc b := by
  rw [pyTrunc_of_nonneg ha, pyTrunc_of_nonneg (ha.trans hab)]
  exact Int.floor_le_floor hab

end TruncLemmas

/-! ## Controller state machine (`WheelchairController.run`, main.py 412-452)

One iteration of the main loop, restricted to the state it reads and writes:
the face-mesh queue message `(yaw, pitch, gesture)` (or `none` when the queue
is empty), the wall-clock time `now` (both `time.time()` calls of the
iteration are modelled as the same instant), and the controller state.  The
iteration ends by computing the command for the Arduino queue. -/

/-- Mutable state of `WheelchairController` touched by lines 412-452 of
`main.py`. -/
structure CtrlState where
  enabled : Bool
  lastYaw : Option ℚ
  lastPitch : Option ℚ
  lastGesture : Option Gesture
  faceLostTime : Option ℚ
deriving DecidableEq, Repr

/-- Initial controller state (`main.py` `__init__`):
`wheelchair_enabled=False, last_yaw=0, last_pitch=0, last_gesture=None,
face_lost_time=None`. -/
def initCtrlState : CtrlState :=
  { enabled := false, lastYaw := some 0, lastPitch := some 0,
    lastGesture := none, faceLostTime := none }

/-- Face-lost handling, `main.py` lines 418-431: on a no-face sample the
timer is started if unset and, strictly more than `face_lost_timeout`
seconds after it started, an enabled chair is disabled; any face sample
clears the timer. -/
def faceLostUpdate (cfg : ControlCfg) (s : CtrlState)
    (yaw pitch : Option ℚ) (now : ℚ) : CtrlState :=
  if yaw = none ∨ pitch = none then
    let t0 := s.faceLostTime.getD now
    let s1 := { s with faceLostTime := some t0 }
    if now - t0 > cfg.faceLostTimeout ∧ s1.enabled = true then
      { s1 with enabled := false }
    else s1
  else { s with faceLostTime := none }

/-- Gesture handling, `main.py` lines 433-440: on a change of gesture the
new gesture is recorded, and a change to `BROW_RAISE` toggles
`wheelchair_enabled`.  There is no cooldown check in this code path. -/
def gestureUpdate (s : CtrlState) (g : Gesture) : CtrlState :=
  if some g ≠ s.lastGesture then
    let s1 := { s with lastGesture := some g }
    if g = Gesture.browRaise then { s1 with enabled := !s1.enabled } else s1
  else s

/-- State portion of one main-loop iteration: store the received yaw/pitch
(lines 415-416), run the face-lost logic, then the gesture logic.  An empty
queue (`msg = none`) leaves the state untouched. -/
def stepState (cfg : ControlCfg) (s : CtrlState)
    (msg : Option (Option ℚ × Option ℚ × Gesture)) (now : ℚ) : CtrlState :=
  match msg with
  | none => s
  | some (yaw, pitch, g) =>
    let sa := { s with lastYaw := yaw, lastPitch := pitch }
    gestureUpdate (faceLostUpdate cfg sa yaw pitch now) g

/-- One full main-loop iteration (lines 412-452): state update followed by
the command computation, with the safety gate of lines 446-448 — when the
chair is not enabled the command placed on the Arduino queue is `(0, 0)`. -/
def step (cfg : ControlCfg) (s : CtrlState)
    (msg : Option (Option ℚ × Option ℚ × Gesture)) (now : ℚ) :
    CtrlState × ℤ × ℤ :=
  let s1 := stepState cfg s msg now
  (s1, if s1.enabled = true
       then calculateControl cfg s1.lastYaw s1.lastPitch
       else (0, 0))

/-! ## Serial protocol (`CommManager.py`, OLD_VER, lines 189-289)

The MARK_II tree imports `CommManager` but does not ship it; the shipped copy
lives in the OLD_VER tree and is embedded here.  Commands reaching
`event_loop` are integers produced by `_calculate_control` /
`ArduinoThread`. -/

/-- Embedding of `CommManager._validate_speed`: clamp to `[0, 100]` (the `isinstance`
guard is discharged by the `ℤ` type). -/
def validateSpeed (s : ℤ) : ℤ :=
  if s < 0 then 0 else if s > 100 then 100 else s

/-- Embedding of `CommManager._validate_position`: clamp to `[-100, 100]`. -/
def validatePosition (p : ℤ) : ℤ :=
  if p < -100 then -100 else if p > 100 then 100 else p

/-- Embedding of `CommManager._send_command`: the ASCII frame written to the serial port. -/
def sendCommandFrame (s p : ℤ) : String :=
  "S:" ++ toString s ++ ",P:" ++ toString p ++ "\n"

/-- The frame that `CommManager.event_loop speed position` writes when
connected: validation (clamping) followed by framing. -/
def eventLoopFrame (s p : ℤ) : String :=
  sendCommandFrame (validateSpeed s) (validatePosition p)

/-! ## Arduino thread (`core/arduino_thread.py`) -/

/-- Command and control state of `ArduinoThread`. -/
structure ArduinoState where
  targetSpeed : ℤ
  targetPosition : ℤ
  currentSpeed : ℤ
  currentPosition : ℤ
  controlEnabled : Bool
deriving DecidableEq, Repr

/-- Embedding of `ArduinoThread.set_command` (lines 167-176): clamp and store the target
speed and steering. -/
def setCommand (st : ArduinoState) (speed position : ℤ) : ArduinoState :=
  { st with targetSpeed := max 0 (min 100 speed),
            targetPosition := max (-100) (min 100 position) }

/-- Embedding of `ArduinoThread.enable_control` (lines 178-192): record the flag; on
disable, zero targets and currents in the same call. -/
def enableControl (st : ArduinoState) (enabled : Bool) : ArduinoState :=
  let st1 := { st with controlEnabled := enabled }
  if enabled = false then
    { st1 with targetSpeed := 0, targetPosition := 0,
               currentSpeed := 0, currentPosition := 0 }
  else st1

/-- Embedding of `ArduinoThread.emergency_stop` (lines 200-209): disable and zero all
four command values (the subsequent `comm_manager.stop()` I/O is outside the
state model). -/
def emergencyStop (st : ArduinoState) : ArduinoState :=
  { st with controlEnabled := false, targetSpeed := 0, targetPosition := 0,
            currentSpeed := 0, currentPosition := 0 }

/-- Embedding of `ArduinoThread._smooth_transition` (lines 120-138): ramp current values
toward targets by at most 10 (speed) / 15 (position) per tick. -/
def smoothTransition (st : ArduinoState) : ArduinoState :=
  let sd := st.targetSpeed - st.currentSpeed
  let cs := if |sd| > 10 then st.currentSpeed + (if sd > 0 then 10 else -10)
            else st.targetSpeed
  let pd := st.targetPosition - st.currentPosition
  let cp := if |pd| > 15 then st.currentPosition + (if pd > 0 then 15 else -15)
            else st.targetPosition
  { st with currentSpeed := cs, currentPosition := cp }

/-- One tick of the connected branch of `ArduinoThread.run` (lines 82-99):
when enabled, ramp and send the current values; when disabled, send `(0, 0)`
and zero the current values.  Returns the new state and the (speed,
position) handed to `comm_manager.event_loop`. -/
def threadTick (st : ArduinoState) : ArduinoState × ℤ × ℤ :=
  if st.controlEnabled = true then
    let st1 := smoothTransition st
    (st1, st1.currentSpeed, st1.currentPosition)
  else
    ({ st with currentSpeed := 0, currentPosition := 0 }, 0, 0)

/-! ## Brow calibration (`GestureRecognizer.calibrate`, lines 340-403, and
`gui/calibration_wizard.py` `_finalize_step`, lines 394-412) -/

/-- Outcome of the threshold-commit step of `GestureRecognizer.calibrate`. -/
inductive CalibOutcome where
  | restart
  | commit (threshold : ℚ)
deriving DecidableEq, Repr

/-- The decision taken in phase 2 of `GestureRecognizer.calibrate` once both
ratios are captured (lines 373-394): restart when `lowered > raised` or when
the two ratios are within 20 of each other, otherwise commit
`lowered + (raised - lowered) * threshold_percentage / 100`. -/
def calibrateFinish (raised lowered pct : ℚ) : CalibOutcome :=
  if lowered > raised then .restart
  else if lowered < raised + 20 ∧ lowered > raised - 20 then .restart
  else .commit (lowered + (raised - lowered) * pct / 100)

/-- Embedding of `CalibrationWizard._finalize_step`, step 3 (lines 405-412): the GUI
wizard commits the midpoint `(raised + lowered) / 2` with no separation
validation. -/
def wizardThreshold (raised lowered : ℚ) : ℚ := (raised + lowered) / 2

/-! ## Pose publication (`FaceMesh._calculate_head_pose`)

The accept path after a successful `solvePnP` / decomposition, as a function
of the raw decomposed angle and the calibration offset.  The MARK_II copy
(lines 228-234) rounds and offsets; the OLD_VER copy (lines 338-344)
additionally clamps the raw angle to `[-90, 90]` before rounding. -/

/-- Embedding of `np.clip x (-90) 90`. -/
def clip90 (q : ℚ) : ℚ := min 90 (max (-90) q)

/-- The MARK_II `FaceMesh` accept path: `self.pitch = np.round(raw_pitch) + self.pitchOffset`
(no clamp).  Same formula for yaw. -/
def publishAngle (raw off : ℚ) : ℚ := (npRound raw : ℚ) + off

/-- The OLD_VER `FaceMesh` accept path: `raw = np.clip(raw, -90, 90);
self.pitch = np.round(raw) + self.pitchOffset`. -/
def publishAngleOld (raw off : ℚ) : ℚ := (npRound (clip90 raw) : ℚ) + off

/-! ## Gesture recognition (`GestureRecognizer._check_eyebrow_raise`,
lines 170-309, and the surrounding `process`, lines 101-142)

The landmark geometry (`_find_distance`, an external `np.sqrt` of pixel
coordinates) is taken as input: a frame is presented to the recognizer as
the head-height reference distance and the two candidate brow distances.
`np.isnan` / `np.isinf` guards (lines 247-250, 278-282, 292-296) can never
fire in exact rational arithmetic and are embedded as always-false checks
(all rational weights count as valid). -/

/-- Smoothing and detection state of `GestureRecognizer` touched by
`_check_eyebrow_raise`. -/
structure GRState where
  ratioList : List ℚ
  weightList : List ℚ
  avgRatio : ℚ
  normalizedRatio : ℚ
  browRaised : Bool
  lastPitch : ℚ
  lastYaw : ℚ
deriving DecidableEq, Repr

/-- Embedding of `np.average xs` (unweighted mean). -/
def npMean (xs : List ℚ) : ℚ := xs.sum / xs.length

/-- Embedding of `np.average` with weights `ws`: weighted mean. -/
def npWeightedMean (xs ws : List ℚ) : ℚ :=
  (List.zipWith (· * ·) ws xs).sum / ws.sum

/-- The per-sample weight of lines 260-274: inverse of (1 - relative
deviation from the running mean), defaulting to 1 near blow-up, capped to
`[0.1, 10]`; weight 1 when the mean is zero. -/
def browWeight (avg corrected : ℚ) : ℚ :=
  if avg ≠ 0 then
    let dev := |avg - corrected| / |avg|
    let w := if dev ≥ 95/100 then 1 else 1 / (1 - dev)
    min (max w (1/10)) 10
  else 1

/-- Embedding of `GestureRecognizer._check_eyebrow_raise` on one frame, given the
computed distances.  Mirrors the source order: head-height guard (< 5),
side choice by yaw sign, brow-distance guard (< 1), ratio guard
(`< 0 ∨ > 1000`), movement guard, tilt guard, pitch/yaw compensation,
history append, weighted smoothing once 10 samples are held, and the final
threshold comparison. -/
def checkEyebrowRaise (threshold : ℚ) (s : GRState) (truePitch trueYaw : ℚ)
    (headHeight browDistL browDistR : ℚ) : GRState :=
  if headHeight < 5 then s
  else
    let browDist := if trueYaw < 0 then browDistL else browDistR
    if browDist < 1 then s
    else
      let distRatio := headHeight / browDist * 100
      if distRatio < 0 ∨ distRatio > 1000 then s
      else
        let pitchDelta := |truePitch - s.lastPitch|
        let yawDelta := |trueYaw - s.lastYaw|
        let s1 := { s with lastPitch := truePitch, lastYaw := trueYaw }
        if pitchDelta > 3 ∨ yawDelta > 4 then { s1 with browRaised := false }
        else if |truePitch| > 25 ∨ |trueYaw| > 30 then
          { s1 with browRaised := false }
        else
          let corrected0 :=
            if truePitch > 0 then distRatio - truePitch * 3
            else distRatio - truePitch * (5/2)
          let corrected :=
            if |trueYaw| > 10 then corrected0 - |trueYaw| * (7/2)
            else corrected0
          let rl := s1.ratioList ++ [corrected]
          if rl.length ≥ 10 then
            let avg := npMean rl
            let w := browWeight avg corrected
            let wl := s1.weightList ++ [w]
            if wl.length ≥ 10 then
              let nr := if wl.length = rl.length then npWeightedMean rl wl
                        else npMean rl
              { s1 with ratioList := rl.tail, weightList := wl.tail,
                        avgRatio := avg, normalizedRatio := nr,
                        browRaised := if nr > threshold then true else false }
            else
              { s1 with ratioList := rl.tail, weightList := wl,
                        avgRatio := avg, normalizedRatio := npMean rl,
                        browRaised :=
                          if npMean rl > threshold then true else false }
          else
            { s1 with ratioList := rl, normalizedRatio := corrected,
                      browRaised :=
                        if corrected > threshold then true else false }

/-- The eyebrow part of `GestureRecognizer.process` after input validation
(lines 122-131): reset the current gesture, run the detector, and report
`BROW_RAISE` exactly when the (possibly retained) `brow_raised` flag is
set. -/
def processGesture (threshold : ℚ) (s : GRState) (truePitch trueYaw : ℚ)
    (headHeight browDistL browDistR : ℚ) : GRState × Gesture :=
  let s1 := checkEyebrowRaise threshold s truePitch trueYaw
              headHeight browDistL browDistR
  (s1, if s1.browRaised = true then Gesture.browRaise else Gesture.gNone)

/-! ## Claim theorems -/

/-- C1: whenever the enabled state is false at the end of a main-loop
iteration, the command delivered to the serial link on that cycle is
`speed = 0, steering = 0`, for every pose input: the pose-derived command is
overridden to `(0, 0)` before it reaches the Arduino queue. -/
theorem C1_output_gate (cfg : ControlCfg) (s : CtrlState)
    (msg : Option (Option ℚ × Option ℚ × Gesture)) (now : ℚ)
    (h : (step cfg s msg now).1.enabled = false) :
    (step cfg s msg now).2 = (0, 0) := by
  have h1 : (step cfg s msg now).1 = stepState cfg s msg now := rfl
  rw [h1] at h
  simp [step, h]

/-- Witness for C1 at the initial (disabled) state with an empty queue. -/
theorem C1_output_gate_witness :
    (step defaultCfg initCtrlState none 0).1.enabled = false ∧
    (step defaultCfg initCtrlState none 0).2 = (0, 0) :=
  ⟨rfl, C1_output_gate defaultCfg initCtrlState none 0 rfl⟩

/-- C3: for every integer input command, the speed sent on the wire is
clamped to `[0, 100]` and the steering to `[-100, 100]` (both in
`CommManager.event_loop` via `_validate_speed` / `_validate_position` and in
`ArduinoThread.set_command`), and the frame written to the port is exactly
the ASCII string `S:<speed>,P:<position>` terminated by a newline; in
particular input speed 150 is sent as 100 and input steering -500 as
-100. -/
theorem C3_clamp_and_frame (st : ArduinoState) (s p : ℤ) :
    validateSpeed s = max 0 (min 100 s) ∧
    validatePosition p = max (-100) (min 100 p) ∧
    eventLoopFrame s p =
      sendCommandFrame (max 0 (min 100 s)) (max (-100) (min 100 p)) ∧
    (setCommand st s p).targetSpeed = validateSpeed s ∧
    (setCommand st s p).targetPosition = validatePosition p ∧
    eventLoopFrame 150 (-500) = "S:100,P:-100\n" := by
  have hs : validateSpeed s = max 0 (min 100 s) := by
    unfold validateSpeed; split_ifs <;> omega
  have hp : validatePosition p = max (-100) (min 100 p) := by
    unfold validatePosition; split_ifs <;> omega
  refine ⟨hs, hp, ?_, ?_, ?_, ?_⟩
  · unfold eventLoopFrame; rw [hs, hp]
  · simp [setCommand, hs]
  · simp [setCommand, hp]
  · rfl

/-- C10: `enable_control(False)` and `emergency_stop` each set the target
speed, target steering, current speed and current steering all to 0 in the
same call, so the next thread tick transmits `(0, 0)` immediately,
bypassing the per-tick ramp limiter. -/
theorem C10_disable_is_immediate (st : ArduinoState) :
    (enableControl st false).targetSpeed = 0 ∧
    (enableControl st false).targetPosition = 0 ∧
    (enableControl st false).currentSpeed = 0 ∧
    (enableControl st false).currentPosition = 0 ∧
    (emergencyStop st).targetSpeed = 0 ∧
    (emergencyStop st).targetPosition = 0 ∧
    (emergencyStop st).currentSpeed = 0 ∧
    (emergencyStop st).currentPosition = 0 ∧
    (threadTick (enableControl st false)).2 = (0, 0) ∧
    (threadTick (emergencyStop st)).2 = (0, 0) :=
  ⟨rfl, rfl, rfl, rfl, rfl, rfl, rfl, rfl, rfl, rfl⟩

/-- C2 counterexample: with the default 2.0-second timeout, a no-face sample
processed when the elapsed no-face time equals the timeout exactly leaves an
enabled chair enabled — the code uses a strict `>` comparison, so "no face
for at least `face_lost_timeout_seconds`" does not force `enabled = false`
at the boundary. -/
theorem C2_strict_timeout_counterexample :
    (step defaultCfg
      { enabled := true, lastYaw := some 0, lastPitch := some 0,
        lastGesture := some Gesture.gNone, faceLostTime := some 0 }
      (some (none, none, Gesture.gNone)) 2).1.enabled = true := by
  simp only [step, stepState, faceLostUpdate, gestureUpdate]
  norm_num [defaultCfg]

/-- C2 (amended: strictly more than the timeout): if the no-face timer was
set at `t0` and a no-face sample is processed strictly more than
`face_lost_timeout` seconds later, the chair ends the face-lost handling
disabled; the timer is cleared by any sample that carries a face; and the
face-lost handling never switches `enabled` from false to true. -/
theorem C2_face_lost_amended (cfg : ControlCfg) (s : CtrlState) (t0 now : ℚ)
    (pitch : Option ℚ) (hset : s.faceLostTime = some t0)
    (helapsed : now - t0 > cfg.faceLostTimeout) :
    (faceLostUpdate cfg s none pitch now).enabled = false ∧
    (∀ yv pv : ℚ,
      (faceLostUpdate cfg s (some yv) (some pv) now).faceLostTime = none) ∧
    (∀ yw pt : Option ℚ,
      (faceLostUpdate cfg s yw pt now).enabled = true → s.enabled = true) := by
  refine ⟨?_, ?_, ?_⟩
  · simp only [faceLostUpdate, hset]
    by_cases he : s.enabled = true
    · simp [helapsed, he]
    · simp only [Bool.not_eq_true] at he
      simp [he]
  · intro yv pv
    simp [faceLostUpdate]
  · intro yw pt
    simp only [faceLostUpdate]
    split_ifs <;> simp_all

/-- Witness for the amended C2 at a concrete state: face lost at time 0,
no-face sample processed at time 3 (> 2-second default timeout) disables the
chair. -/
theorem C2_face_lost_amended_witness :
    (faceLostUpdate defaultCfg
      { enabled := true, lastYaw := none, lastPitch := none,
        lastGesture := some Gesture.gNone, faceLostTime := some 0 }
      none none 3).enabled = false :=
  (C2_face_lost_amended defaultCfg _ 0 3 none rfl (by norm_num [defaultCfg])).1

/-- C4 counterexample: the MARK_II main loop has no cooldown check, so two
brow-raise edges 0.2 seconds apart toggle `enabled` twice (false → true at
time 0, true → false at time 0.2), well inside the 2.0-second
`gesture_cooldown` that the source's only cooldown constant (OLD_VER
`app.py`) prescribes. -/
theorem C4_no_cooldown_counterexample :
    (step defaultCfg initCtrlState
        (some (some 0, some 0, Gesture.browRaise)) 0).1.enabled = true ∧
    (step defaultCfg
      (step defaultCfg initCtrlState
        (some (some 0, some 0, Gesture.browRaise)) 0).1
      (some (some 0, some 0, Gesture.gNone)) (1/10)).1.enabled = true ∧
    (step defaultCfg
      (step defaultCfg
        (step defaultCfg initCtrlState
          (some (some 0, some 0, Gesture.browRaise)) 0).1
        (some (some 0, some 0, Gesture.gNone)) (1/10)).1
      (some (some 0, some 0, Gesture.browRaise)) (2/10)).1.enabled = false ∧
    (2/10 : ℚ) - 0 < 2 := by
  refine ⟨?_, ?_, ?_, by norm_num⟩ <;>
    simp [step, stepState, faceLostUpdate, gestureUpdate, initCtrlState,
      defaultCfg]

/-- Number of `enabled` toggles performed by the gesture handler along a
sequence of received gestures. -/
def countToggles (s : CtrlState) : List Gesture → ℕ
  | [] => 0
  | g :: rest =>
    let s1 := gestureUpdate s g
    (if s1.enabled = s.enabled then 0 else 1) + countToggles s1 rest

/-- Number of brow-raise edges (gesture becomes `BROW_RAISE` and differs
from the last recorded gesture) along a sequence of received gestures. -/
def countBrowEdges (last : Option Gesture) : List Gesture → ℕ
  | [] => 0
  | g :: rest =>
    (if g = Gesture.browRaise ∧ some g ≠ last then 1 else 0) +
      countBrowEdges (some g) rest

theorem gestureUpdate_lastGesture (s : CtrlState) (g : Gesture) :
    (gestureUpdate s g).lastGesture = some g := by
  unfold gestureUpdate
  split_ifs with h h2 <;> simp_all

theorem gestureUpdate_enabled (s : CtrlState) (g : Gesture) :
    (gestureUpdate s g).enabled =
      if g = Gesture.browRaise ∧ some g ≠ s.lastGesture then !s.enabled
      else s.enabled := by
  unfold gestureUpdate
  by_cases hl : some g = s.lastGesture
  · simp [hl]
  · by_cases hg : g = Gesture.browRaise
    · subst hg; simp [hl]
    · simp [hl, hg]

/-- C4 (amended): the enabled flag toggles exactly once per brow-raise edge
— only when the gesture becomes `BROW_RAISE` and differs from the last
recorded gesture — but the MARK_II main loop enforces no cooldown between
toggles (a `gesture_cooldown` debounce exists only in the OLD_VER GUI
variant, which is level- rather than edge-triggered): along any gesture
sequence the number of toggles equals the number of brow-raise edges. -/
theorem C4_toggle_per_edge_amended (gs : List Gesture) (s : CtrlState) :
    countToggles s gs = countBrowEdges s.lastGesture gs := by
  induction gs generalizing s with
  | nil => rfl
  | cons g rest ih =>
    simp only [countToggles, countBrowEdges]
    rw [ih (gestureUpdate s g), gestureUpdate_lastGesture]
    congr 1
    rw [gestureUpdate_enabled]
    by_cases hC : g = Gesture.browRaise ∧ some g ≠ s.lastGesture
    · simp [hC]
    · simp [hC]


/-- C5 counterexample: the GUI calibration wizard's threshold commit
(`_finalize_step`) has no separation validation and uses the midpoint, not
the percentage formula.  At the claim's insufficient-separation example
(raised=310, lowered=300) it commits 305 instead of restarting, and at the
sufficient example (raised=500, lowered=300) it commits 400, not 440. -/
theorem C5_wizard_counterexample :
    wizardThreshold 310 300 = 305 ∧ wizardThreshold 500 300 ≠ 440 := by
  constructor <;> norm_num [wizardThreshold]

/-- C5 (amended to `GestureRecognizer.calibrate`, the non-GUI calibration
path; the GUI wizard instead commits the midpoint `(raised+lowered)/2` with
no separation validation): whenever the capture means pass validation
(`lowered ≤ raised` and separation at least 20 ratio units), the committed
threshold is `lowered + (raised - lowered) * threshold_percentage / 100`
and lies strictly between the two means; with insufficient separation no
threshold is committed and the capture phases restart. -/
theorem C5_threshold_amended (raised lowered pct : ℚ)
    (h0 : 0 < pct) (h1 : pct < 100) :
    (∀ t, calibrateFinish raised lowered pct = .commit t →
       t = lowered + (raised - lowered) * pct / 100 ∧
       lowered < t ∧ t < raised) ∧
    (lowered ≤ raised → raised - lowered < 20 →
       calibrateFinish raised lowered pct = .restart) := by
  constructor
  · intro t ht
    unfold calibrateFinish at ht
    by_cases hgt : lowered > raised
    · rw [if_pos hgt] at ht
      exact absurd ht (by simp)
    rw [if_neg hgt] at ht
    by_cases hsep : lowered < raised + 20 ∧ lowered > raised - 20
    · rw [if_pos hsep] at ht
      exact absurd ht (by simp)
    rw [if_neg hsep] at ht
    · have hle : lowered ≤ raised := not_lt.mp hgt
      have hsep2 : lowered ≤ raised - 20 := by
        by_contra hcon
        exact hsep ⟨by linarith, by linarith⟩
      have hform : t = lowered + (raised - lowered) * pct / 100 :=
        ((CalibOutcome.commit.injEq _ _).mp ht).symm
      have hsp : (0:ℚ) < raised - lowered := by linarith
      refine ⟨hform, ?_, ?_⟩
      · have hpos : 0 < (raised - lowered) * pct / 100 := by positivity
        linarith [hform.ge, hform.le]
      · have h100 : (raised - lowered) * pct < (raised - lowered) * 100 :=
          mul_lt_mul_of_pos_left h1 hsp
        rw [hform]
        linarith
  · intro hle hsep20
    unfold calibrateFinish
    split_ifs with hgt hs
    · rfl
    · rfl
    · exact absurd ⟨by linarith, by linarith⟩ hs

/-- Witness for the amended C5 at the claim's own numbers: raised=500,
lowered=300, threshold_percentage=70 commits 440, strictly between the
means; raised=310, lowered=300 restarts. -/
theorem C5_threshold_amended_witness :
    calibrateFinish 500 300 70 = .commit 440 ∧
    (300:ℚ) < 440 ∧ (440:ℚ) < 500 ∧
    calibrateFinish 310 300 70 = .restart := by
  have h1 := C5_threshold_amended 500 300 70 (by norm_num) (by norm_num)
  have h2 := C5_threshold_amended 310 300 70 (by norm_num) (by norm_num)
  have hc : calibrateFinish 500 300 70 = .commit 440 := by
    norm_num [calibrateFinish]
  exact ⟨hc, (h1.1 440 hc).2.1, (h1.1 440 hc).2.2,
    h2.2 (by norm_num) (by norm_num)⟩

/-- The speed half of `_calculate_control`, definitionally the first
component of `calculateControl` on non-`None` inputs. -/
theorem calculateControl_fst (cfg : ControlCfg) (y p : ℚ) :
    (calculateControl cfg (some y) (some p)).1 =
      if p > cfg.minControlPitch then
        pyTrunc (min ((p - cfg.minControlPitch) /
          (cfg.maxControlPitch - cfg.minControlPitch)) 1 * cfg.maxSpeedPercent)
      else 0 := rfl

/-- C6: with a well-formed control band (`min_control_pitch <
max_control_pitch`) and a non-negative `max_speed_percent`, the mapped
speed is 0 for every pitch at or below the pitch deadzone, is non-decreasing
in pitch, and never exceeds `max_speed_percent`. -/
theorem C6_speed_mapping (cfg : ControlCfg) (y : ℚ)
    (hband : cfg.minControlPitch < cfg.maxControlPitch)
    (hms : 0 ≤ cfg.maxSpeedPercent) :
    (∀ p : ℚ, p ≤ cfg.minControlPitch →
       (calculateControl cfg (some y) (some p)).1 = 0) ∧
    (∀ p q : ℚ, p ≤ q →
       (calculateControl cfg (some y) (some p)).1 ≤
         (calculateControl cfg (some y) (some q)).1) ∧
    (∀ p : ℚ, ((calculateControl cfg (some y) (some p)).1 : ℚ) ≤
       cfg.maxSpeedPercent) := by
  have hden : (0:ℚ) < cfg.maxControlPitch - cfg.minControlPitch := by linarith
  have hratio : ∀ p : ℚ, cfg.minControlPitch < p →
      0 ≤ min ((p - cfg.minControlPitch) /
        (cfg.maxControlPitch - cfg.minControlPitch)) 1 * cfg.maxSpeedPercent := by
    intro p hp
    refine mul_nonneg (le_min ?_ zero_le_one) hms
    exact div_nonneg (by linarith) hden.le
  refine ⟨?_, ?_, ?_⟩
  · intro p hp
    rw [calculateControl_fst, if_neg (not_lt.mpr hp)]
  · intro p q hpq
    rw [calculateControl_fst, calculateControl_fst]
    by_cases hp : cfg.minControlPitch < p
    · rw [if_pos hp, if_pos (lt_of_lt_of_le hp hpq)]
      refine pyTrunc_mono_nonneg (hratio p hp) ?_
      have hdiv : (p - cfg.minControlPitch) /
          (cfg.maxControlPitch - cfg.minControlPitch) ≤
          (q - cfg.minControlPitch) /
          (cfg.maxControlPitch - cfg.minControlPitch) := by
        gcongr
      exact mul_le_mul_of_nonneg_right (min_le_min hdiv le_rfl) hms
    · rw [if_neg hp]
      by_cases hq : cfg.minControlPitch < q
      · rw [if_pos hq]
        exact pyTrunc_nonneg (hratio q hq)
      · rw [if_neg hq]
  · intro p
    rw [calculateControl_fst]
    by_cases hp : cfg.minControlPitch < p
    · rw [if_pos hp]
      calc (pyTrunc (min ((p - cfg.minControlPitch) /
            (cfg.maxControlPitch - cfg.minControlPitch)) 1 *
              cfg.maxSpeedPercent) : ℚ)
          ≤ min ((p - cfg.minControlPitch) /
              (cfg.maxControlPitch - cfg.minControlPitch)) 1 *
                cfg.maxSpeedPercent := pyTrunc_le (hratio p hp)
        _ ≤ 1 * cfg.maxSpeedPercent :=
            mul_le_mul_of_nonneg_right (min_le_right _ 1) hms
        _ = cfg.maxSpeedPercent := one_mul _
    · rw [if_neg hp]
      exact_mod_cast hms

/-- Witness for C6 at the default configuration: pitch 3 (inside the
deadzone) maps to speed 0, pitch 10 gives at least the pitch-7 speed, and
the pitch-100 speed stays within `max_speed_percent = 20`. -/
theorem C6_speed_mapping_witness :
    (calculateControl defaultCfg (some 0) (some 3)).1 = 0 ∧
    (calculateControl defaultCfg (some 0) (some 7)).1 ≤
      (calculateControl defaultCfg (some 0) (some 10)).1 ∧
    ((calculateControl defaultCfg (some 0) (some 100)).1 : ℚ) ≤ 20 := by
  have h := C6_speed_mapping defaultCfg 0 (by norm_num [defaultCfg])
    (by norm_num [defaultCfg])
  exact ⟨h.1 3 (by norm_num [defaultCfg]), h.2.1 7 10 (by norm_num),
    h.2.2 100⟩

/-- C7: evaluation of `_calculate_control` at the failing input.  With the
default configuration (`min_control_yaw=5`, `max_control_yaw=25`), yaw 10
maps to steering 25 but yaw -10 maps to steering -75: the code computes
`abs(yaw - min_control_yaw)` instead of `abs(yaw) - min_control_yaw`, so
for negative yaw the deadzone width is added to, not subtracted from, the
yaw magnitude, and steering is not an odd function of yaw. -/
theorem C7_yaw_mapping_evaluation :
    calculateControl defaultCfg (some 10) (some 0) = (0, 25) ∧
    calculateControl defaultCfg (some (-10)) (some 0) = (0, -75) ∧
    (-75 : ℤ) ≠ -25 := by
  refine ⟨?_, ?_, by decide⟩ <;>
    · simp only [calculateControl, defaultCfg]
      norm_num [pyTrunc]


section NpRoundLemmas

theorem npRound_intCast (n : ℤ) : npRound (n : ℚ) = n := by
  unfold npRound
  norm_num

theorem npRound_le_of_le_int {q : ℚ} {n : ℤ} (h : q ≤ (n : ℚ)) :
    npRound q ≤ n := by
  have hf : ⌊q⌋ ≤ n := (Int.floor_le_floor h).trans (Int.floor_intCast n).le
  have hfq : (⌊q⌋ : ℚ) ≤ q := Int.floor_le q
  unfold npRound
  split_ifs with h1 h2 h3
  · exact hf
  · have hq : (⌊q⌋ : ℚ) + 1/2 < q := by linarith
    have : (⌊q⌋ : ℚ) < (n : ℚ) := by linarith
    have hlt : ⌊q⌋ < n := by exact_mod_cast this
    omega
  · exact hf
  · have hq : (⌊q⌋ : ℚ) + 1/2 = q := by linarith
    have : (⌊q⌋ : ℚ) < (n : ℚ) := by linarith
    have hlt : ⌊q⌋ < n := by exact_mod_cast this
    omega

theorem int_le_npRound {q : ℚ} {n : ℤ} (h : (n : ℚ) ≤ q) :
    n ≤ npRound q := by
  have hf : n ≤ ⌊q⌋ := Int.le_floor.mpr h
  unfold npRound
  split_ifs <;> omega

/-- Clamping the raw angle before rounding (the OLD_VER code order) equals
rounding first and clamping the integer result (the order stated by the
claim): the operations commute because the bounds are the integers -90, 90. -/
theorem npRound_clip90 (raw : ℚ) :
    npRound (clip90 raw) = max (-90) (min 90 (npRound raw)) := by
  rcases lt_or_le raw (-90) with h | h
  · have hc : clip90 raw = (-90 : ℚ) := by
      unfold clip90
      rw [max_eq_left h.le, min_eq_right (by norm_num)]
    have h1 : npRound ((-90 : ℚ)) = -90 := by
      have := npRound_intCast (-90)
      exact_mod_cast this
    have h2 : npRound raw ≤ -90 := by
      apply npRound_le_of_le_int (n := -90)
      exact_mod_cast h.le
    rw [hc, h1]
    omega
  · rcases le_or_lt raw 90 with h' | h'
    · have hc : clip90 raw = raw := by
        unfold clip90
        rw [max_eq_right h, min_eq_right h']
      have hlo : -90 ≤ npRound raw := by
        apply int_le_npRound (n := -90)
        exact_mod_cast h
      have hhi : npRound raw ≤ 90 := by
        apply npRound_le_of_le_int (n := 90)
        exact_mod_cast h'
      rw [hc]
      omega
    · have hc : clip90 raw = (90 : ℚ) := by
        unfold clip90
        rw [min_eq_left]
        exact le_max_of_le_right h'.le
      have h1 : npRound ((90 : ℚ)) = 90 := by
        have := npRound_intCast 90
        exact_mod_cast this
      have h2 : 90 ≤ npRound raw := by
        apply int_le_npRound (n := 90)
        exact_mod_cast h'.le
      rw [hc, h1]
      omega

end NpRoundLemmas

/-- C8 counterexample: the MARK_II `FaceMesh._calculate_head_pose` performs
no clamping — a raw decomposed pitch of 100 degrees with zero offset is
published as 100, outside `[-90, 90]`, contradicting the claim for the
MARK_II pose path. -/
theorem C8_no_clamp_counterexample :
    publishAngle 100 0 = 100 ∧ (90 : ℚ) < publishAngle 100 0 := by
  constructor <;> norm_num [publishAngle, npRound]

/-- C8 (amended to the OLD_VER `FaceMesh`; the MARK_II copy rounds and
offsets but omits the clamp): every accepted raw angle is rounded to an
integer number of degrees, clamped to `[-90, 90]`, and has the calibration
offset added before being published — the published value minus the offset
is the integer `max (-90) (min 90 (npRound raw))`, which lies in
`[-90, 90]`. -/
theorem C8_pose_clamp_amended (raw off : ℚ) :
    publishAngleOld raw off =
      ((max (-90) (min 90 (npRound raw)) : ℤ) : ℚ) + off ∧
    -90 ≤ max (-90) (min 90 (npRound raw)) ∧
    max (-90) (min 90 (npRound raw)) ≤ 90 := by
  refine ⟨?_, by omega, by omega⟩
  unfold publishAngleOld
  rw [npRound_clip90]

/-- C9 counterexample: a frame rejected by the head-height guard
(`head_height = 1 < 5`) leaves the recognizer state unchanged — including a
`brow_raised` flag left `True` by an earlier frame — and `process` then
still reports `BROW_RAISE` from the retained flag, so a gesture does fire
on the rejected frame, contrary to the claim. -/
theorem C9_stale_gesture_counterexample :
    processGesture 400
      { ratioList := [], weightList := [], avgRatio := 0,
        normalizedRatio := 500, browRaised := true,
        lastPitch := 0, lastYaw := 0 } 0 0 1 10 10 =
    ({ ratioList := [], weightList := [], avgRatio := 0,
       normalizedRatio := 500, browRaised := true,
       lastPitch := 0, lastYaw := 0 }, Gesture.browRaise) := by
  norm_num [processGesture, checkEyebrowRaise]

/-- C9 (amended): for every gesture frame rejected by validation (reference
distance below 5, selected brow distance below 1, or the distance ratio
negative or above 1000 — the NaN/Inf guards cannot fire in exact
arithmetic), the smoothing history, the previously smoothed ratio and the
whole recognizer state are retained unchanged and no exception propagates;
however the gesture reported for that frame is derived from the retained
`brow_raised` flag, so a previously detected raise continues to fire. -/
theorem C9_rejection_amended (threshold : ℚ) (s : GRState)
    (tp ty hh bl br : ℚ)
    (hrej : hh < 5 ∨ (if ty < 0 then bl else br) < 1 ∨
            hh / (if ty < 0 then bl else br) * 100 < 0 ∨
            hh / (if ty < 0 then bl else br) * 100 > 1000) :
    checkEyebrowRaise threshold s tp ty hh bl br = s ∧
    processGesture threshold s tp ty hh bl br =
      (s, if s.browRaised = true then Gesture.browRaise
          else Gesture.gNone) := by
  have h1 : checkEyebrowRaise threshold s tp ty hh bl br = s := by
    unfold checkEyebrowRaise
    by_cases hh5 : hh < 5
    · simp [hh5]
    · by_cases hbd : (if ty < 0 then bl else br) < 1
      · simp [hh5, hbd]
      · have h3 : hh / (if ty < 0 then bl else br) * 100 < 0 ∨
            hh / (if ty < 0 then bl else br) * 100 > 1000 := by tauto
        simp [hh5, hbd, h3]
  refine ⟨h1, ?_⟩
  unfold processGesture
  rw [h1]

/-- Witness for the amended C9: head height 1 rejects the frame and leaves
a quiescent recognizer state untouched, reporting no gesture. -/
theorem C9_rejection_amended_witness :
    checkEyebrowRaise 400
      { ratioList := [], weightList := [], avgRatio := 0,
        normalizedRatio := 0, browRaised := false,
        lastPitch := 0, lastYaw := 0 } 0 0 1 10 10 =
    { ratioList := [], weightList := [], avgRatio := 0,
      normalizedRatio := 0, browRaised := false,
      lastPitch := 0, lastYaw := 0 } :=
  (C9_rejection_amended 400 _ 0 0 1 10 10 (Or.inl (by norm_num))).1
